import Mathlib

/-
Verification of the user_service HTTP core: shallow embedding of
src/helper/com_key_handler.py and src/main.py (key validator, field
validators, user store, and the three request handlers), followed by
theorems about the embedded pipeline.
-/

set_option autoImplicit false
set_option maxRecDepth 40000

namespace UserService

/-- Embeds Python str() applied to an optional header value: a missing
header is the value None, and str(None) is the string "None"; a present
header is already a string and str is the identity on it. -/
def pyStr : Option String → String
  | none => "None"
  | some s => s

/-- Embeds validate_communication_key from src/helper/com_key_handler.py.
The process-wide secret os.getenv("COM_X_KEY") is passed as a parameter;
getenv returns None when the variable is unset, in which case the Python
comparison key != secretKey is true for every string key, so the result
is Unauthorized.  Returns the error string on failure and none on success,
exactly as the source returns "Unauthorized" or None. -/
def validate_communication_key (key : Option String) (secret : Option String) :
    Option String :=
  match secret with
  | none => some ("Unauthorized")
  | some s => if pyStr key = s then none else some ("Unauthorized")

/-- Scalar-value ranges of the Unicode decimal digit characters
(category Nd), the class the regex \d matches in a Python str pattern;
generated from Unicode 14.0.0 character data. -/
def decimalDigitRanges : List (Nat × Nat) :=
  [
   (0x30, 0x39), (0x660, 0x669), (0x6F0, 0x6F9), (0x7C0, 0x7C9), (0x966, 0x96F),
   (0x9E6, 0x9EF), (0xA66, 0xA6F), (0xAE6, 0xAEF), (0xB66, 0xB6F), (0xBE6, 0xBEF),
   (0xC66, 0xC6F), (0xCE6, 0xCEF), (0xD66, 0xD6F), (0xDE6, 0xDEF), (0xE50, 0xE59),
   (0xED0, 0xED9), (0xF20, 0xF29), (0x1040, 0x1049), (0x1090, 0x1099), (0x17E0, 0x17E9),
   (0x1810, 0x1819), (0x1946, 0x194F), (0x19D0, 0x19D9), (0x1A80, 0x1A89), (0x1A90, 0x1A99),
   (0x1B50, 0x1B59), (0x1BB0, 0x1BB9), (0x1C40, 0x1C49), (0x1C50, 0x1C59), (0xA620, 0xA629),
   (0xA8D0, 0xA8D9), (0xA900, 0xA909), (0xA9D0, 0xA9D9), (0xA9F0, 0xA9F9), (0xAA50, 0xAA59),
   (0xABF0, 0xABF9), (0xFF10, 0xFF19), (0x104A0, 0x104A9), (0x10D30, 0x10D39), (0x11066, 0x1106F),
   (0x110F0, 0x110F9), (0x11136, 0x1113F), (0x111D0, 0x111D9), (0x112F0, 0x112F9), (0x11450, 0x11459),
   (0x114D0, 0x114D9), (0x11650, 0x11659), (0x116C0, 0x116C9), (0x11730, 0x11739), (0x118E0, 0x118E9),
   (0x11950, 0x11959), (0x11C50, 0x11C59), (0x11D50, 0x11D59), (0x11DA0, 0x11DA9), (0x16A60, 0x16A69),
   (0x16AC0, 0x16AC9), (0x16B50, 0x16B59), (0x1D7CE, 0x1D7FF), (0x1E140, 0x1E149), (0x1E2F0, 0x1E2F9),
   (0x1E950, 0x1E959), (0x1FBF0, 0x1FBF9)
  ]

/-- Scalar-value ranges of the regex word characters of a Python str
pattern: the characters of str.isalnum() together with the underscore;
generated from Unicode 14.0.0 character data. -/
def wordCharRanges : List (Nat × Nat) :=
  [
   (0x30, 0x39), (0x41, 0x5A), (0x5F, 0x5F), (0x61, 0x7A), (0xAA, 0xAA),
   (0xB2, 0xB3), (0xB5, 0xB5), (0xB9, 0xBA), (0xBC, 0xBE), (0xC0, 0xD6),
   (0xD8, 0xF6), (0xF8, 0x2C1), (0x2C6, 0x2D1), (0x2E0, 0x2E4), (0x2EC, 0x2EC),
   (0x2EE, 0x2EE), (0x370, 0x374), (0x376, 0x377), (0x37A, 0x37D), (0x37F, 0x37F),
   (0x386, 0x386), (0x388, 0x38A), (0x38C, 0x38C), (0x38E, 0x3A1), (0x3A3, 0x3F5),
   (0x3F7, 0x481), (0x48A, 0x52F), (0x531, 0x556), (0x559, 0x559), (0x560, 0x588),
   (0x5D0, 0x5EA), (0x5EF, 0x5F2), (0x620, 0x64A), (0x660, 0x669), (0x66E, 0x66F),
   (0x671, 0x6D3), (0x6D5, 0x6D5), (0x6E5, 0x6E6), (0x6EE, 0x6FC), (0x6FF, 0x6FF),
   (0x710, 0x710), (0x712, 0x72F), (0x74D, 0x7A5), (0x7B1, 0x7B1), (0x7C0, 0x7EA),
   (0x7F4, 0x7F5), (0x7FA, 0x7FA), (0x800, 0x815), (0x81A, 0x81A), (0x824, 0x824),
   (0x828, 0x828), (0x840, 0x858), (0x860, 0x86A), (0x870, 0x887), (0x889, 0x88E),
   (0x8A0, 0x8C9), (0x904, 0x939), (0x93D, 0x93D), (0x950, 0x950), (0x958, 0x961),
   (0x966, 0x96F), (0x971, 0x980), (0x985, 0x98C), (0x98F, 0x990), (0x993, 0x9A8),
   (0x9AA, 0x9B0), (0x9B2, 0x9B2), (0x9B6, 0x9B9), (0x9BD, 0x9BD), (0x9CE, 0x9CE),
   (0x9DC, 0x9DD), (0x9DF, 0x9E1), (0x9E6, 0x9F1), (0x9F4, 0x9F9), (0x9FC, 0x9FC),
   (0xA05, 0xA0A), (0xA0F, 0xA10), (0xA13, 0xA28), (0xA2A, 0xA30), (0xA32, 0xA33),
   (0xA35, 0xA36), (0xA38, 0xA39), (0xA59, 0xA5C), (0xA5E, 0xA5E), (0xA66, 0xA6F),
   (0xA72, 0xA74), (0xA85, 0xA8D), (0xA8F, 0xA91), (0xA93, 0xAA8), (0xAAA, 0xAB0),
   (0xAB2, 0xAB3), (0xAB5, 0xAB9), (0xABD, 0xABD), (0xAD0, 0xAD0), (0xAE0, 0xAE1),
   (0xAE6, 0xAEF), (0xAF9, 0xAF9), (0xB05, 0xB0C), (0xB0F, 0xB10), (0xB13, 0xB28),
   (0xB2A, 0xB30), (0xB32, 0xB33), (0xB35, 0xB39), (0xB3D, 0xB3D), (0xB5C, 0xB5D),
   (0xB5F, 0xB61), (0xB66, 0xB6F), (0xB71, 0xB77), (0xB83, 0xB83), (0xB85, 0xB8A),
   (0xB8E, 0xB90), (0xB92, 0xB95), (0xB99, 0xB9A), (0xB9C, 0xB9C), (0xB9E, 0xB9F),
   (0xBA3, 0xBA4), (0xBA8, 0xBAA), (0xBAE, 0xBB9), (0xBD0, 0xBD0), (0xBE6, 0xBF2),
   (0xC05, 0xC0C), (0xC0E, 0xC10), (0xC12, 0xC28), (0xC2A, 0xC39), (0xC3D, 0xC3D),
   (0xC58, 0xC5A), (0xC5D, 0xC5D), (0xC60, 0xC61), (0xC66, 0xC6F), (0xC78, 0xC7E),
   (0xC80, 0xC80), (0xC85, 0xC8C), (0xC8E, 0xC90), (0xC92, 0xCA8), (0xCAA, 0xCB3),
   (0xCB5, 0xCB9), (0xCBD, 0xCBD), (0xCDD, 0xCDE), (0xCE0, 0xCE1), (0xCE6, 0xCEF),
   (0xCF1, 0xCF2), (0xD04, 0xD0C), (0xD0E, 0xD10), (0xD12, 0xD3A), (0xD3D, 0xD3D),
   (0xD4E, 0xD4E), (0xD54, 0xD56), (0xD58, 0xD61), (0xD66, 0xD78), (0xD7A, 0xD7F),
   (0xD85, 0xD96), (0xD9A, 0xDB1), (0xDB3, 0xDBB), (0xDBD, 0xDBD), (0xDC0, 0xDC6),
   (0xDE6, 0xDEF), (0xE01, 0xE30), (0xE32, 0xE33), (0xE40, 0xE46), (0xE50, 0xE59),
   (0xE81, 0xE82), (0xE84, 0xE84), (0xE86, 0xE8A), (0xE8C, 0xEA3), (0xEA5, 0xEA5),
   (0xEA7, 0xEB0), (0xEB2, 0xEB3), (0xEBD, 0xEBD), (0xEC0, 0xEC4), (0xEC6, 0xEC6),
   (0xED0, 0xED9), (0xEDC, 0xEDF), (0xF00, 0xF00), (0xF20, 0xF33), (0xF40, 0xF47),
   (0xF49, 0xF6C), (0xF88, 0xF8C), (0x1000, 0x102A), (0x103F, 0x1049), (0x1050, 0x1055),
   (0x105A, 0x105D), (0x1061, 0x1061), (0x1065, 0x1066), (0x106E, 0x1070), (0x1075, 0x1081),
   (0x108E, 0x108E), (0x1090, 0x1099), (0x10A0, 0x10C5), (0x10C7, 0x10C7), (0x10CD, 0x10CD),
   (0x10D0, 0x10FA), (0x10FC, 0x1248), (0x124A, 0x124D), (0x1250, 0x1256), (0x1258, 0x1258),
   (0x125A, 0x125D), (0x1260, 0x1288), (0x128A, 0x128D), (0x1290, 0x12B0), (0x12B2, 0x12B5),
   (0x12B8, 0x12BE), (0x12C0, 0x12C0), (0x12C2, 0x12C5), (0x12C8, 0x12D6), (0x12D8, 0x1310),
   (0x1312, 0x1315), (0x1318, 0x135A), (0x1369, 0x137C), (0x1380, 0x138F), (0x13A0, 0x13F5),
   (0x13F8, 0x13FD), (0x1401, 0x166C), (0x166F, 0x167F), (0x1681, 0x169A), (0x16A0, 0x16EA),
   (0x16EE, 0x16F8), (0x1700, 0x1711), (0x171F, 0x1731), (0x1740, 0x1751), (0x1760, 0x176C),
   (0x176E, 0x1770), (0x1780, 0x17B3), (0x17D7, 0x17D7), (0x17DC, 0x17DC), (0x17E0, 0x17E9),
   (0x17F0, 0x17F9), (0x1810, 0x1819), (0x1820, 0x1878), (0x1880, 0x1884), (0x1887, 0x18A8),
   (0x18AA, 0x18AA), (0x18B0, 0x18F5), (0x1900, 0x191E), (0x1946, 0x196D), (0x1970, 0x1974),
   (0x1980, 0x19AB), (0x19B0, 0x19C9), (0x19D0, 0x19DA), (0x1A00, 0x1A16), (0x1A20, 0x1A54),
   (0x1A80, 0x1A89), (0x1A90, 0x1A99), (0x1AA7, 0x1AA7), (0x1B05, 0x1B33), (0x1B45, 0x1B4C),
   (0x1B50, 0x1B59), (0x1B83, 0x1BA0), (0x1BAE, 0x1BE5), (0x1C00, 0x1C23), (0x1C40, 0x1C49),
   (0x1C4D, 0x1C7D), (0x1C80, 0x1C88), (0x1C90, 0x1CBA), (0x1CBD, 0x1CBF), (0x1CE9, 0x1CEC),
   (0x1CEE, 0x1CF3), (0x1CF5, 0x1CF6), (0x1CFA, 0x1CFA), (0x1D00, 0x1DBF), (0x1E00, 0x1F15),
   (0x1F18, 0x1F1D), (0x1F20, 0x1F45), (0x1F48, 0x1F4D), (0x1F50, 0x1F57), (0x1F59, 0x1F59),
   (0x1F5B, 0x1F5B), (0x1F5D, 0x1F5D), (0x1F5F, 0x1F7D), (0x1F80, 0x1FB4), (0x1FB6, 0x1FBC),
   (0x1FBE, 0x1FBE), (0x1FC2, 0x1FC4), (0x1FC6, 0x1FCC), (0x1FD0, 0x1FD3), (0x1FD6, 0x1FDB),
   (0x1FE0, 0x1FEC), (0x1FF2, 0x1FF4), (0x1FF6, 0x1FFC), (0x2070, 0x2071), (0x2074, 0x2079),
   (0x207F, 0x2089), (0x2090, 0x209C), (0x2102, 0x2102), (0x2107, 0x2107), (0x210A, 0x2113),
   (0x2115, 0x2115), (0x2119, 0x211D), (0x2124, 0x2124), (0x2126, 0x2126), (0x2128, 0x2128),
   (0x212A, 0x212D), (0x212F, 0x2139), (0x213C, 0x213F), (0x2145, 0x2149), (0x214E, 0x214E),
   (0x2150, 0x2189), (0x2460, 0x249B), (0x24EA, 0x24FF), (0x2776, 0x2793), (0x2C00, 0x2CE4),
   (0x2CEB, 0x2CEE), (0x2CF2, 0x2CF3), (0x2CFD, 0x2CFD), (0x2D00, 0x2D25), (0x2D27, 0x2D27),
   (0x2D2D, 0x2D2D), (0x2D30, 0x2D67), (0x2D6F, 0x2D6F), (0x2D80, 0x2D96), (0x2DA0, 0x2DA6),
   (0x2DA8, 0x2DAE), (0x2DB0, 0x2DB6), (0x2DB8, 0x2DBE), (0x2DC0, 0x2DC6), (0x2DC8, 0x2DCE),
   (0x2DD0, 0x2DD6), (0x2DD8, 0x2DDE), (0x2E2F, 0x2E2F), (0x3005, 0x3007), (0x3021, 0x3029),
   (0x3031, 0x3035), (0x3038, 0x303C), (0x3041, 0x3096), (0x309D, 0x309F), (0x30A1, 0x30FA),
   (0x30FC, 0x30FF), (0x3105, 0x312F), (0x3131, 0x318E), (0x3192, 0x3195), (0x31A0, 0x31BF),
   (0x31F0, 0x31FF), (0x3220, 0x3229), (0x3248, 0x324F), (0x3251, 0x325F), (0x3280, 0x3289),
   (0x32B1, 0x32BF), (0x3400, 0x4DBF), (0x4E00, 0xA48C), (0xA4D0, 0xA4FD), (0xA500, 0xA60C),
   (0xA610, 0xA62B), (0xA640, 0xA66E), (0xA67F, 0xA69D), (0xA6A0, 0xA6EF), (0xA717, 0xA71F),
   (0xA722, 0xA788), (0xA78B, 0xA7CA), (0xA7D0, 0xA7D1), (0xA7D3, 0xA7D3), (0xA7D5, 0xA7D9),
   (0xA7F2, 0xA801), (0xA803, 0xA805), (0xA807, 0xA80A), (0xA80C, 0xA822), (0xA830, 0xA835),
   (0xA840, 0xA873), (0xA882, 0xA8B3), (0xA8D0, 0xA8D9), (0xA8F2, 0xA8F7), (0xA8FB, 0xA8FB),
   (0xA8FD, 0xA8FE), (0xA900, 0xA925), (0xA930, 0xA946), (0xA960, 0xA97C), (0xA984, 0xA9B2),
   (0xA9CF, 0xA9D9), (0xA9E0, 0xA9E4), (0xA9E6, 0xA9FE), (0xAA00, 0xAA28), (0xAA40, 0xAA42),
   (0xAA44, 0xAA4B), (0xAA50, 0xAA59), (0xAA60, 0xAA76), (0xAA7A, 0xAA7A), (0xAA7E, 0xAAAF),
   (0xAAB1, 0xAAB1), (0xAAB5, 0xAAB6), (0xAAB9, 0xAABD), (0xAAC0, 0xAAC0), (0xAAC2, 0xAAC2),
   (0xAADB, 0xAADD), (0xAAE0, 0xAAEA), (0xAAF2, 0xAAF4), (0xAB01, 0xAB06), (0xAB09, 0xAB0E),
   (0xAB11, 0xAB16), (0xAB20, 0xAB26), (0xAB28, 0xAB2E), (0xAB30, 0xAB5A), (0xAB5C, 0xAB69),
   (0xAB70, 0xABE2), (0xABF0, 0xABF9), (0xAC00, 0xD7A3), (0xD7B0, 0xD7C6), (0xD7CB, 0xD7FB),
   (0xF900, 0xFA6D), (0xFA70, 0xFAD9), (0xFB00, 0xFB06), (0xFB13, 0xFB17), (0xFB1D, 0xFB1D),
   (0xFB1F, 0xFB28), (0xFB2A, 0xFB36), (0xFB38, 0xFB3C), (0xFB3E, 0xFB3E), (0xFB40, 0xFB41),
   (0xFB43, 0xFB44), (0xFB46, 0xFBB1), (0xFBD3, 0xFD3D), (0xFD50, 0xFD8F), (0xFD92, 0xFDC7),
   (0xFDF0, 0xFDFB), (0xFE70, 0xFE74), (0xFE76, 0xFEFC), (0xFF10, 0xFF19), (0xFF21, 0xFF3A),
   (0xFF41, 0xFF5A), (0xFF66, 0xFFBE), (0xFFC2, 0xFFC7), (0xFFCA, 0xFFCF), (0xFFD2, 0xFFD7),
   (0xFFDA, 0xFFDC), (0x10000, 0x1000B), (0x1000D, 0x10026), (0x10028, 0x1003A), (0x1003C, 0x1003D),
   (0x1003F, 0x1004D), (0x10050, 0x1005D), (0x10080, 0x100FA), (0x10107, 0x10133), (0x10140, 0x10178),
   (0x1018A, 0x1018B), (0x10280, 0x1029C), (0x102A0, 0x102D0), (0x102E1, 0x102FB), (0x10300, 0x10323),
   (0x1032D, 0x1034A), (0x10350, 0x10375), (0x10380, 0x1039D), (0x103A0, 0x103C3), (0x103C8, 0x103CF),
   (0x103D1, 0x103D5), (0x10400, 0x1049D), (0x104A0, 0x104A9), (0x104B0, 0x104D3), (0x104D8, 0x104FB),
   (0x10500, 0x10527), (0x10530, 0x10563), (0x10570, 0x1057A), (0x1057C, 0x1058A), (0x1058C, 0x10592),
   (0x10594, 0x10595), (0x10597, 0x105A1), (0x105A3, 0x105B1), (0x105B3, 0x105B9), (0x105BB, 0x105BC),
   (0x10600, 0x10736), (0x10740, 0x10755), (0x10760, 0x10767), (0x10780, 0x10785), (0x10787, 0x107B0),
   (0x107B2, 0x107BA), (0x10800, 0x10805), (0x10808, 0x10808), (0x1080A, 0x10835), (0x10837, 0x10838),
   (0x1083C, 0x1083C), (0x1083F, 0x10855), (0x10858, 0x10876), (0x10879, 0x1089E), (0x108A7, 0x108AF),
   (0x108E0, 0x108F2), (0x108F4, 0x108F5), (0x108FB, 0x1091B), (0x10920, 0x10939), (0x10980, 0x109B7),
   (0x109BC, 0x109CF), (0x109D2, 0x10A00), (0x10A10, 0x10A13), (0x10A15, 0x10A17), (0x10A19, 0x10A35),
   (0x10A40, 0x10A48), (0x10A60, 0x10A7E), (0x10A80, 0x10A9F), (0x10AC0, 0x10AC7), (0x10AC9, 0x10AE4),
   (0x10AEB, 0x10AEF), (0x10B00, 0x10B35), (0x10B40, 0x10B55), (0x10B58, 0x10B72), (0x10B78, 0x10B91),
   (0x10BA9, 0x10BAF), (0x10C00, 0x10C48), (0x10C80, 0x10CB2), (0x10CC0, 0x10CF2), (0x10CFA, 0x10D23),
   (0x10D30, 0x10D39), (0x10E60, 0x10E7E), (0x10E80, 0x10EA9), (0x10EB0, 0x10EB1), (0x10F00, 0x10F27),
   (0x10F30, 0x10F45), (0x10F51, 0x10F54), (0x10F70, 0x10F81), (0x10FB0, 0x10FCB), (0x10FE0, 0x10FF6),
   (0x11003, 0x11037), (0x11052, 0x1106F), (0x11071, 0x11072), (0x11075, 0x11075), (0x11083, 0x110AF),
   (0x110D0, 0x110E8), (0x110F0, 0x110F9), (0x11103, 0x11126), (0x11136, 0x1113F), (0x11144, 0x11144),
   (0x11147, 0x11147), (0x11150, 0x11172), (0x11176, 0x11176), (0x11183, 0x111B2), (0x111C1, 0x111C4),
   (0x111D0, 0x111DA), (0x111DC, 0x111DC), (0x111E1, 0x111F4), (0x11200, 0x11211), (0x11213, 0x1122B),
   (0x11280, 0x11286), (0x11288, 0x11288), (0x1128A, 0x1128D), (0x1128F, 0x1129D), (0x1129F, 0x112A8),
   (0x112B0, 0x112DE), (0x112F0, 0x112F9), (0x11305, 0x1130C), (0x1130F, 0x11310), (0x11313, 0x11328),
   (0x1132A, 0x11330), (0x11332, 0x11333), (0x11335, 0x11339), (0x1133D, 0x1133D), (0x11350, 0x11350),
   (0x1135D, 0x11361), (0x11400, 0x11434), (0x11447, 0x1144A), (0x11450, 0x11459), (0x1145F, 0x11461),
   (0x11480, 0x114AF), (0x114C4, 0x114C5), (0x114C7, 0x114C7), (0x114D0, 0x114D9), (0x11580, 0x115AE),
   (0x115D8, 0x115DB), (0x11600, 0x1162F), (0x11644, 0x11644), (0x11650, 0x11659), (0x11680, 0x116AA),
   (0x116B8, 0x116B8), (0x116C0, 0x116C9), (0x11700, 0x1171A), (0x11730, 0x1173B), (0x11740, 0x11746),
   (0x11800, 0x1182B), (0x118A0, 0x118F2), (0x118FF, 0x11906), (0x11909, 0x11909), (0x1190C, 0x11913),
   (0x11915, 0x11916), (0x11918, 0x1192F), (0x1193F, 0x1193F), (0x11941, 0x11941), (0x11950, 0x11959),
   (0x119A0, 0x119A7), (0x119AA, 0x119D0), (0x119E1, 0x119E1), (0x119E3, 0x119E3), (0x11A00, 0x11A00),
   (0x11A0B, 0x11A32), (0x11A3A, 0x11A3A), (0x11A50, 0x11A50), (0x11A5C, 0x11A89), (0x11A9D, 0x11A9D),
   (0x11AB0, 0x11AF8), (0x11C00, 0x11C08), (0x11C0A, 0x11C2E), (0x11C40, 0x11C40), (0x11C50, 0x11C6C),
   (0x11C72, 0x11C8F), (0x11D00, 0x11D06), (0x11D08, 0x11D09), (0x11D0B, 0x11D30), (0x11D46, 0x11D46),
   (0x11D50, 0x11D59), (0x11D60, 0x11D65), (0x11D67, 0x11D68), (0x11D6A, 0x11D89), (0x11D98, 0x11D98),
   (0x11DA0, 0x11DA9), (0x11EE0, 0x11EF2), (0x11FB0, 0x11FB0), (0x11FC0, 0x11FD4), (0x12000, 0x12399),
   (0x12400, 0x1246E), (0x12480, 0x12543), (0x12F90, 0x12FF0), (0x13000, 0x1342E), (0x14400, 0x14646),
   (0x16800, 0x16A38), (0x16A40, 0x16A5E), (0x16A60, 0x16A69), (0x16A70, 0x16ABE), (0x16AC0, 0x16AC9),
   (0x16AD0, 0x16AED), (0x16B00, 0x16B2F), (0x16B40, 0x16B43), (0x16B50, 0x16B59), (0x16B5B, 0x16B61),
   (0x16B63, 0x16B77), (0x16B7D, 0x16B8F), (0x16E40, 0x16E96), (0x16F00, 0x16F4A), (0x16F50, 0x16F50),
   (0x16F93, 0x16F9F), (0x16FE0, 0x16FE1), (0x16FE3, 0x16FE3), (0x17000, 0x187F7), (0x18800, 0x18CD5),
   (0x18D00, 0x18D08), (0x1AFF0, 0x1AFF3), (0x1AFF5, 0x1AFFB), (0x1AFFD, 0x1AFFE), (0x1B000, 0x1B122),
   (0x1B150, 0x1B152), (0x1B164, 0x1B167), (0x1B170, 0x1B2FB), (0x1BC00, 0x1BC6A), (0x1BC70, 0x1BC7C),
   (0x1BC80, 0x1BC88), (0x1BC90, 0x1BC99), (0x1D2E0, 0x1D2F3), (0x1D360, 0x1D378), (0x1D400, 0x1D454),
   (0x1D456, 0x1D49C), (0x1D49E, 0x1D49F), (0x1D4A2, 0x1D4A2), (0x1D4A5, 0x1D4A6), (0x1D4A9, 0x1D4AC),
   (0x1D4AE, 0x1D4B9), (0x1D4BB, 0x1D4BB), (0x1D4BD, 0x1D4C3), (0x1D4C5, 0x1D505), (0x1D507, 0x1D50A),
   (0x1D50D, 0x1D514), (0x1D516, 0x1D51C), (0x1D51E, 0x1D539), (0x1D53B, 0x1D53E), (0x1D540, 0x1D544),
   (0x1D546, 0x1D546), (0x1D54A, 0x1D550), (0x1D552, 0x1D6A5), (0x1D6A8, 0x1D6C0), (0x1D6C2, 0x1D6DA),
   (0x1D6DC, 0x1D6FA), (0x1D6FC, 0x1D714), (0x1D716, 0x1D734), (0x1D736, 0x1D74E), (0x1D750, 0x1D76E),
   (0x1D770, 0x1D788), (0x1D78A, 0x1D7A8), (0x1D7AA, 0x1D7C2), (0x1D7C4, 0x1D7CB), (0x1D7CE, 0x1D7FF),
   (0x1DF00, 0x1DF1E), (0x1E100, 0x1E12C), (0x1E137, 0x1E13D), (0x1E140, 0x1E149), (0x1E14E, 0x1E14E),
   (0x1E290, 0x1E2AD), (0x1E2C0, 0x1E2EB), (0x1E2F0, 0x1E2F9), (0x1E7E0, 0x1E7E6), (0x1E7E8, 0x1E7EB),
   (0x1E7ED, 0x1E7EE), (0x1E7F0, 0x1E7FE), (0x1E800, 0x1E8C4), (0x1E8C7, 0x1E8CF), (0x1E900, 0x1E943),
   (0x1E94B, 0x1E94B), (0x1E950, 0x1E959), (0x1EC71, 0x1ECAB), (0x1ECAD, 0x1ECAF), (0x1ECB1, 0x1ECB4),
   (0x1ED01, 0x1ED2D), (0x1ED2F, 0x1ED3D), (0x1EE00, 0x1EE03), (0x1EE05, 0x1EE1F), (0x1EE21, 0x1EE22),
   (0x1EE24, 0x1EE24), (0x1EE27, 0x1EE27), (0x1EE29, 0x1EE32), (0x1EE34, 0x1EE37), (0x1EE39, 0x1EE39),
   (0x1EE3B, 0x1EE3B), (0x1EE42, 0x1EE42), (0x1EE47, 0x1EE47), (0x1EE49, 0x1EE49), (0x1EE4B, 0x1EE4B),
   (0x1EE4D, 0x1EE4F), (0x1EE51, 0x1EE52), (0x1EE54, 0x1EE54), (0x1EE57, 0x1EE57), (0x1EE59, 0x1EE59),
   (0x1EE5B, 0x1EE5B), (0x1EE5D, 0x1EE5D), (0x1EE5F, 0x1EE5F), (0x1EE61, 0x1EE62), (0x1EE64, 0x1EE64),
   (0x1EE67, 0x1EE6A), (0x1EE6C, 0x1EE72), (0x1EE74, 0x1EE77), (0x1EE79, 0x1EE7C), (0x1EE7E, 0x1EE7E),
   (0x1EE80, 0x1EE89), (0x1EE8B, 0x1EE9B), (0x1EEA1, 0x1EEA3), (0x1EEA5, 0x1EEA9), (0x1EEAB, 0x1EEBB),
   (0x1F100, 0x1F10C), (0x1FBF0, 0x1FBF9), (0x20000, 0x2A6DF), (0x2A700, 0x2B738), (0x2B740, 0x2B81D),
   (0x2B820, 0x2CEA1), (0x2CEB0, 0x2EBE0), (0x2F800, 0x2FA1D), (0x30000, 0x3134A)
  ]

/-- Scalar-value ranges of the Unicode alphabetic characters, the
class of str.isalpha(); generated from Unicode 14.0.0 character data.
Used only to state that certain accepted characters are not letters. -/
def alphaCharRanges : List (Nat × Nat) :=
  [
   (0x41, 0x5A), (0x61, 0x7A), (0xAA, 0xAA), (0xB5, 0xB5), (0xBA, 0xBA),
   (0xC0, 0xD6), (0xD8, 0xF6), (0xF8, 0x2C1), (0x2C6, 0x2D1), (0x2E0, 0x2E4),
   (0x2EC, 0x2EC), (0x2EE, 0x2EE), (0x370, 0x374), (0x376, 0x377), (0x37A, 0x37D),
   (0x37F, 0x37F), (0x386, 0x386), (0x388, 0x38A), (0x38C, 0x38C), (0x38E, 0x3A1),
   (0x3A3, 0x3F5), (0x3F7, 0x481), (0x48A, 0x52F), (0x531, 0x556), (0x559, 0x559),
   (0x560, 0x588), (0x5D0, 0x5EA), (0x5EF, 0x5F2), (0x620, 0x64A), (0x66E, 0x66F),
   (0x671, 0x6D3), (0x6D5, 0x6D5), (0x6E5, 0x6E6), (0x6EE, 0x6EF), (0x6FA, 0x6FC),
   (0x6FF, 0x6FF), (0x710, 0x710), (0x712, 0x72F), (0x74D, 0x7A5), (0x7B1, 0x7B1),
   (0x7CA, 0x7EA), (0x7F4, 0x7F5), (0x7FA, 0x7FA), (0x800, 0x815), (0x81A, 0x81A),
   (0x824, 0x824), (0x828, 0x828), (0x840, 0x858), (0x860, 0x86A), (0x870, 0x887),
   (0x889, 0x88E), (0x8A0, 0x8C9), (0x904, 0x939), (0x93D, 0x93D), (0x950, 0x950),
   (0x958, 0x961), (0x971, 0x980), (0x985, 0x98C), (0x98F, 0x990), (0x993, 0x9A8),
   (0x9AA, 0x9B0), (0x9B2, 0x9B2), (0x9B6, 0x9B9), (0x9BD, 0x9BD), (0x9CE, 0x9CE),
   (0x9DC, 0x9DD), (0x9DF, 0x9E1), (0x9F0, 0x9F1), (0x9FC, 0x9FC), (0xA05, 0xA0A),
   (0xA0F, 0xA10), (0xA13, 0xA28), (0xA2A, 0xA30), (0xA32, 0xA33), (0xA35, 0xA36),
   (0xA38, 0xA39), (0xA59, 0xA5C), (0xA5E, 0xA5E), (0xA72, 0xA74), (0xA85, 0xA8D),
   (0xA8F, 0xA91), (0xA93, 0xAA8), (0xAAA, 0xAB0), (0xAB2, 0xAB3), (0xAB5, 0xAB9),
   (0xABD, 0xABD), (0xAD0, 0xAD0), (0xAE0, 0xAE1), (0xAF9, 0xAF9), (0xB05, 0xB0C),
   (0xB0F, 0xB10), (0xB13, 0xB28), (0xB2A, 0xB30), (0xB32, 0xB33), (0xB35, 0xB39),
   (0xB3D, 0xB3D), (0xB5C, 0xB5D), (0xB5F, 0xB61), (0xB71, 0xB71), (0xB83, 0xB83),
   (0xB85, 0xB8A), (0xB8E, 0xB90), (0xB92, 0xB95), (0xB99, 0xB9A), (0xB9C, 0xB9C),
   (0xB9E, 0xB9F), (0xBA3, 0xBA4), (0xBA8, 0xBAA), (0xBAE, 0xBB9), (0xBD0, 0xBD0),
   (0xC05, 0xC0C), (0xC0E, 0xC10), (0xC12, 0xC28), (0xC2A, 0xC39), (0xC3D, 0xC3D),
   (0xC58, 0xC5A), (0xC5D, 0xC5D), (0xC60, 0xC61), (0xC80, 0xC80), (0xC85, 0xC8C),
   (0xC8E, 0xC90), (0xC92, 0xCA8), (0xCAA, 0xCB3), (0xCB5, 0xCB9), (0xCBD, 0xCBD),
   (0xCDD, 0xCDE), (0xCE0, 0xCE1), (0xCF1, 0xCF2), (0xD04, 0xD0C), (0xD0E, 0xD10),
   (0xD12, 0xD3A), (0xD3D, 0xD3D), (0xD4E, 0xD4E), (0xD54, 0xD56), (0xD5F, 0xD61),
   (0xD7A, 0xD7F), (0xD85, 0xD96), (0xD9A, 0xDB1), (0xDB3, 0xDBB), (0xDBD, 0xDBD),
   (0xDC0, 0xDC6), (0xE01, 0xE30), (0xE32, 0xE33), (0xE40, 0xE46), (0xE81, 0xE82),
   (0xE84, 0xE84), (0xE86, 0xE8A), (0xE8C, 0xEA3), (0xEA5, 0xEA5), (0xEA7, 0xEB0),
   (0xEB2, 0xEB3), (0xEBD, 0xEBD), (0xEC0, 0xEC4), (0xEC6, 0xEC6), (0xEDC, 0xEDF),
   (0xF00, 0xF00), (0xF40, 0xF47), (0xF49, 0xF6C), (0xF88, 0xF8C), (0x1000, 0x102A),
   (0x103F, 0x103F), (0x1050, 0x1055), (0x105A, 0x105D), (0x1061, 0x1061), (0x1065, 0x1066),
   (0x106E, 0x1070), (0x1075, 0x1081), (0x108E, 0x108E), (0x10A0, 0x10C5), (0x10C7, 0x10C7),
   (0x10CD, 0x10CD), (0x10D0, 0x10FA), (0x10FC, 0x1248), (0x124A, 0x124D), (0x1250, 0x1256),
   (0x1258, 0x1258), (0x125A, 0x125D), (0x1260, 0x1288), (0x128A, 0x128D), (0x1290, 0x12B0),
   (0x12B2, 0x12B5), (0x12B8, 0x12BE), (0x12C0, 0x12C0), (0x12C2, 0x12C5), (0x12C8, 0x12D6),
   (0x12D8, 0x1310), (0x1312, 0x1315), (0x1318, 0x135A), (0x1380, 0x138F), (0x13A0, 0x13F5),
   (0x13F8, 0x13FD), (0x1401, 0x166C), (0x166F, 0x167F), (0x1681, 0x169A), (0x16A0, 0x16EA),
   (0x16F1, 0x16F8), (0x1700, 0x1711), (0x171F, 0x1731), (0x1740, 0x1751), (0x1760, 0x176C),
   (0x176E, 0x1770), (0x1780, 0x17B3), (0x17D7, 0x17D7), (0x17DC, 0x17DC), (0x1820, 0x1878),
   (0x1880, 0x1884), (0x1887, 0x18A8), (0x18AA, 0x18AA), (0x18B0, 0x18F5), (0x1900, 0x191E),
   (0x1950, 0x196D), (0x1970, 0x1974), (0x1980, 0x19AB), (0x19B0, 0x19C9), (0x1A00, 0x1A16),
   (0x1A20, 0x1A54), (0x1AA7, 0x1AA7), (0x1B05, 0x1B33), (0x1B45, 0x1B4C), (0x1B83, 0x1BA0),
   (0x1BAE, 0x1BAF), (0x1BBA, 0x1BE5), (0x1C00, 0x1C23), (0x1C4D, 0x1C4F), (0x1C5A, 0x1C7D),
   (0x1C80, 0x1C88), (0x1C90, 0x1CBA), (0x1CBD, 0x1CBF), (0x1CE9, 0x1CEC), (0x1CEE, 0x1CF3),
   (0x1CF5, 0x1CF6), (0x1CFA, 0x1CFA), (0x1D00, 0x1DBF), (0x1E00, 0x1F15), (0x1F18, 0x1F1D),
   (0x1F20, 0x1F45), (0x1F48, 0x1F4D), (0x1F50, 0x1F57), (0x1F59, 0x1F59), (0x1F5B, 0x1F5B),
   (0x1F5D, 0x1F5D), (0x1F5F, 0x1F7D), (0x1F80, 0x1FB4), (0x1FB6, 0x1FBC), (0x1FBE, 0x1FBE),
   (0x1FC2, 0x1FC4), (0x1FC6, 0x1FCC), (0x1FD0, 0x1FD3), (0x1FD6, 0x1FDB), (0x1FE0, 0x1FEC),
   (0x1FF2, 0x1FF4), (0x1FF6, 0x1FFC), (0x2071, 0x2071), (0x207F, 0x207F), (0x2090, 0x209C),
   (0x2102, 0x2102), (0x2107, 0x2107), (0x210A, 0x2113), (0x2115, 0x2115), (0x2119, 0x211D),
   (0x2124, 0x2124), (0x2126, 0x2126), (0x2128, 0x2128), (0x212A, 0x212D), (0x212F, 0x2139),
   (0x213C, 0x213F), (0x2145, 0x2149), (0x214E, 0x214E), (0x2183, 0x2184), (0x2C00, 0x2CE4),
   (0x2CEB, 0x2CEE), (0x2CF2, 0x2CF3), (0x2D00, 0x2D25), (0x2D27, 0x2D27), (0x2D2D, 0x2D2D),
   (0x2D30, 0x2D67), (0x2D6F, 0x2D6F), (0x2D80, 0x2D96), (0x2DA0, 0x2DA6), (0x2DA8, 0x2DAE),
   (0x2DB0, 0x2DB6), (0x2DB8, 0x2DBE), (0x2DC0, 0x2DC6), (0x2DC8, 0x2DCE), (0x2DD0, 0x2DD6),
   (0x2DD8, 0x2DDE), (0x2E2F, 0x2E2F), (0x3005, 0x3006), (0x3031, 0x3035), (0x303B, 0x303C),
   (0x3041, 0x3096), (0x309D, 0x309F), (0x30A1, 0x30FA), (0x30FC, 0x30FF), (0x3105, 0x312F),
   (0x3131, 0x318E), (0x31A0, 0x31BF), (0x31F0, 0x31FF), (0x3400, 0x4DBF), (0x4E00, 0xA48C),
   (0xA4D0, 0xA4FD), (0xA500, 0xA60C), (0xA610, 0xA61F), (0xA62A, 0xA62B), (0xA640, 0xA66E),
   (0xA67F, 0xA69D), (0xA6A0, 0xA6E5), (0xA717, 0xA71F), (0xA722, 0xA788), (0xA78B, 0xA7CA),
   (0xA7D0, 0xA7D1), (0xA7D3, 0xA7D3), (0xA7D5, 0xA7D9), (0xA7F2, 0xA801), (0xA803, 0xA805),
   (0xA807, 0xA80A), (0xA80C, 0xA822), (0xA840, 0xA873), (0xA882, 0xA8B3), (0xA8F2, 0xA8F7),
   (0xA8FB, 0xA8FB), (0xA8FD, 0xA8FE), (0xA90A, 0xA925), (0xA930, 0xA946), (0xA960, 0xA97C),
   (0xA984, 0xA9B2), (0xA9CF, 0xA9CF), (0xA9E0, 0xA9E4), (0xA9E6, 0xA9EF), (0xA9FA, 0xA9FE),
   (0xAA00, 0xAA28), (0xAA40, 0xAA42), (0xAA44, 0xAA4B), (0xAA60, 0xAA76), (0xAA7A, 0xAA7A),
   (0xAA7E, 0xAAAF), (0xAAB1, 0xAAB1), (0xAAB5, 0xAAB6), (0xAAB9, 0xAABD), (0xAAC0, 0xAAC0),
   (0xAAC2, 0xAAC2), (0xAADB, 0xAADD), (0xAAE0, 0xAAEA), (0xAAF2, 0xAAF4), (0xAB01, 0xAB06),
   (0xAB09, 0xAB0E), (0xAB11, 0xAB16), (0xAB20, 0xAB26), (0xAB28, 0xAB2E), (0xAB30, 0xAB5A),
   (0xAB5C, 0xAB69), (0xAB70, 0xABE2), (0xAC00, 0xD7A3), (0xD7B0, 0xD7C6), (0xD7CB, 0xD7FB),
   (0xF900, 0xFA6D), (0xFA70, 0xFAD9), (0xFB00, 0xFB06), (0xFB13, 0xFB17), (0xFB1D, 0xFB1D),
   (0xFB1F, 0xFB28), (0xFB2A, 0xFB36), (0xFB38, 0xFB3C), (0xFB3E, 0xFB3E), (0xFB40, 0xFB41),
   (0xFB43, 0xFB44), (0xFB46, 0xFBB1), (0xFBD3, 0xFD3D), (0xFD50, 0xFD8F), (0xFD92, 0xFDC7),
   (0xFDF0, 0xFDFB), (0xFE70, 0xFE74), (0xFE76, 0xFEFC), (0xFF21, 0xFF3A), (0xFF41, 0xFF5A),
   (0xFF66, 0xFFBE), (0xFFC2, 0xFFC7), (0xFFCA, 0xFFCF), (0xFFD2, 0xFFD7), (0xFFDA, 0xFFDC),
   (0x10000, 0x1000B), (0x1000D, 0x10026), (0x10028, 0x1003A), (0x1003C, 0x1003D), (0x1003F, 0x1004D),
   (0x10050, 0x1005D), (0x10080, 0x100FA), (0x10280, 0x1029C), (0x102A0, 0x102D0), (0x10300, 0x1031F),
   (0x1032D, 0x10340), (0x10342, 0x10349), (0x10350, 0x10375), (0x10380, 0x1039D), (0x103A0, 0x103C3),
   (0x103C8, 0x103CF), (0x10400, 0x1049D), (0x104B0, 0x104D3), (0x104D8, 0x104FB), (0x10500, 0x10527),
   (0x10530, 0x10563), (0x10570, 0x1057A), (0x1057C, 0x1058A), (0x1058C, 0x10592), (0x10594, 0x10595),
   (0x10597, 0x105A1), (0x105A3, 0x105B1), (0x105B3, 0x105B9), (0x105BB, 0x105BC), (0x10600, 0x10736),
   (0x10740, 0x10755), (0x10760, 0x10767), (0x10780, 0x10785), (0x10787, 0x107B0), (0x107B2, 0x107BA),
   (0x10800, 0x10805), (0x10808, 0x10808), (0x1080A, 0x10835), (0x10837, 0x10838), (0x1083C, 0x1083C),
   (0x1083F, 0x10855), (0x10860, 0x10876), (0x10880, 0x1089E), (0x108E0, 0x108F2), (0x108F4, 0x108F5),
   (0x10900, 0x10915), (0x10920, 0x10939), (0x10980, 0x109B7), (0x109BE, 0x109BF), (0x10A00, 0x10A00),
   (0x10A10, 0x10A13), (0x10A15, 0x10A17), (0x10A19, 0x10A35), (0x10A60, 0x10A7C), (0x10A80, 0x10A9C),
   (0x10AC0, 0x10AC7), (0x10AC9, 0x10AE4), (0x10B00, 0x10B35), (0x10B40, 0x10B55), (0x10B60, 0x10B72),
   (0x10B80, 0x10B91), (0x10C00, 0x10C48), (0x10C80, 0x10CB2), (0x10CC0, 0x10CF2), (0x10D00, 0x10D23),
   (0x10E80, 0x10EA9), (0x10EB0, 0x10EB1), (0x10F00, 0x10F1C), (0x10F27, 0x10F27), (0x10F30, 0x10F45),
   (0x10F70, 0x10F81), (0x10FB0, 0x10FC4), (0x10FE0, 0x10FF6), (0x11003, 0x11037), (0x11071, 0x11072),
   (0x11075, 0x11075), (0x11083, 0x110AF), (0x110D0, 0x110E8), (0x11103, 0x11126), (0x11144, 0x11144),
   (0x11147, 0x11147), (0x11150, 0x11172), (0x11176, 0x11176), (0x11183, 0x111B2), (0x111C1, 0x111C4),
   (0x111DA, 0x111DA), (0x111DC, 0x111DC), (0x11200, 0x11211), (0x11213, 0x1122B), (0x11280, 0x11286),
   (0x11288, 0x11288), (0x1128A, 0x1128D), (0x1128F, 0x1129D), (0x1129F, 0x112A8), (0x112B0, 0x112DE),
   (0x11305, 0x1130C), (0x1130F, 0x11310), (0x11313, 0x11328), (0x1132A, 0x11330), (0x11332, 0x11333),
   (0x11335, 0x11339), (0x1133D, 0x1133D), (0x11350, 0x11350), (0x1135D, 0x11361), (0x11400, 0x11434),
   (0x11447, 0x1144A), (0x1145F, 0x11461), (0x11480, 0x114AF), (0x114C4, 0x114C5), (0x114C7, 0x114C7),
   (0x11580, 0x115AE), (0x115D8, 0x115DB), (0x11600, 0x1162F), (0x11644, 0x11644), (0x11680, 0x116AA),
   (0x116B8, 0x116B8), (0x11700, 0x1171A), (0x11740, 0x11746), (0x11800, 0x1182B), (0x118A0, 0x118DF),
   (0x118FF, 0x11906), (0x11909, 0x11909), (0x1190C, 0x11913), (0x11915, 0x11916), (0x11918, 0x1192F),
   (0x1193F, 0x1193F), (0x11941, 0x11941), (0x119A0, 0x119A7), (0x119AA, 0x119D0), (0x119E1, 0x119E1),
   (0x119E3, 0x119E3), (0x11A00, 0x11A00), (0x11A0B, 0x11A32), (0x11A3A, 0x11A3A), (0x11A50, 0x11A50),
   (0x11A5C, 0x11A89), (0x11A9D, 0x11A9D), (0x11AB0, 0x11AF8), (0x11C00, 0x11C08), (0x11C0A, 0x11C2E),
   (0x11C40, 0x11C40), (0x11C72, 0x11C8F), (0x11D00, 0x11D06), (0x11D08, 0x11D09), (0x11D0B, 0x11D30),
   (0x11D46, 0x11D46), (0x11D60, 0x11D65), (0x11D67, 0x11D68), (0x11D6A, 0x11D89), (0x11D98, 0x11D98),
   (0x11EE0, 0x11EF2), (0x11FB0, 0x11FB0), (0x12000, 0x12399), (0x12480, 0x12543), (0x12F90, 0x12FF0),
   (0x13000, 0x1342E), (0x14400, 0x14646), (0x16800, 0x16A38), (0x16A40, 0x16A5E), (0x16A70, 0x16ABE),
   (0x16AD0, 0x16AED), (0x16B00, 0x16B2F), (0x16B40, 0x16B43), (0x16B63, 0x16B77), (0x16B7D, 0x16B8F),
   (0x16E40, 0x16E7F), (0x16F00, 0x16F4A), (0x16F50, 0x16F50), (0x16F93, 0x16F9F), (0x16FE0, 0x16FE1),
   (0x16FE3, 0x16FE3), (0x17000, 0x187F7), (0x18800, 0x18CD5), (0x18D00, 0x18D08), (0x1AFF0, 0x1AFF3),
   (0x1AFF5, 0x1AFFB), (0x1AFFD, 0x1AFFE), (0x1B000, 0x1B122), (0x1B150, 0x1B152), (0x1B164, 0x1B167),
   (0x1B170, 0x1B2FB), (0x1BC00, 0x1BC6A), (0x1BC70, 0x1BC7C), (0x1BC80, 0x1BC88), (0x1BC90, 0x1BC99),
   (0x1D400, 0x1D454), (0x1D456, 0x1D49C), (0x1D49E, 0x1D49F), (0x1D4A2, 0x1D4A2), (0x1D4A5, 0x1D4A6),
   (0x1D4A9, 0x1D4AC), (0x1D4AE, 0x1D4B9), (0x1D4BB, 0x1D4BB), (0x1D4BD, 0x1D4C3), (0x1D4C5, 0x1D505),
   (0x1D507, 0x1D50A), (0x1D50D, 0x1D514), (0x1D516, 0x1D51C), (0x1D51E, 0x1D539), (0x1D53B, 0x1D53E),
   (0x1D540, 0x1D544), (0x1D546, 0x1D546), (0x1D54A, 0x1D550), (0x1D552, 0x1D6A5), (0x1D6A8, 0x1D6C0),
   (0x1D6C2, 0x1D6DA), (0x1D6DC, 0x1D6FA), (0x1D6FC, 0x1D714), (0x1D716, 0x1D734), (0x1D736, 0x1D74E),
   (0x1D750, 0x1D76E), (0x1D770, 0x1D788), (0x1D78A, 0x1D7A8), (0x1D7AA, 0x1D7C2), (0x1D7C4, 0x1D7CB),
   (0x1DF00, 0x1DF1E), (0x1E100, 0x1E12C), (0x1E137, 0x1E13D), (0x1E14E, 0x1E14E), (0x1E290, 0x1E2AD),
   (0x1E2C0, 0x1E2EB), (0x1E7E0, 0x1E7E6), (0x1E7E8, 0x1E7EB), (0x1E7ED, 0x1E7EE), (0x1E7F0, 0x1E7FE),
   (0x1E800, 0x1E8C4), (0x1E900, 0x1E943), (0x1E94B, 0x1E94B), (0x1EE00, 0x1EE03), (0x1EE05, 0x1EE1F),
   (0x1EE21, 0x1EE22), (0x1EE24, 0x1EE24), (0x1EE27, 0x1EE27), (0x1EE29, 0x1EE32), (0x1EE34, 0x1EE37),
   (0x1EE39, 0x1EE39), (0x1EE3B, 0x1EE3B), (0x1EE42, 0x1EE42), (0x1EE47, 0x1EE47), (0x1EE49, 0x1EE49),
   (0x1EE4B, 0x1EE4B), (0x1EE4D, 0x1EE4F), (0x1EE51, 0x1EE52), (0x1EE54, 0x1EE54), (0x1EE57, 0x1EE57),
   (0x1EE59, 0x1EE59), (0x1EE5B, 0x1EE5B), (0x1EE5D, 0x1EE5D), (0x1EE5F, 0x1EE5F), (0x1EE61, 0x1EE62),
   (0x1EE64, 0x1EE64), (0x1EE67, 0x1EE6A), (0x1EE6C, 0x1EE72), (0x1EE74, 0x1EE77), (0x1EE79, 0x1EE7C),
   (0x1EE7E, 0x1EE7E), (0x1EE80, 0x1EE89), (0x1EE8B, 0x1EE9B), (0x1EEA1, 0x1EEA3), (0x1EEA5, 0x1EEA9),
   (0x1EEAB, 0x1EEBB), (0x20000, 0x2A6DF), (0x2A700, 0x2B738), (0x2B740, 0x2B81D), (0x2B820, 0x2CEA1),
   (0x2CEB0, 0x2EBE0), (0x2F800, 0x2FA1D), (0x30000, 0x3134A)
  ]

/-- Whether a scalar value lies in one of the ranges of a table. -/
def memRanges (rs : List (Nat × Nat)) (n : Nat) : Bool :=
  rs.any (fun p => p.1 ≤ n && n ≤ p.2)

/-- The class the regex \d matches in a Python str pattern: the Unicode
decimal digit characters (category Nd).  Superscript digits and numeric
characters such as '²' and '½' are not in it. -/
def pyIsDecimalDigit (c : Char) : Bool :=
  memRanges decimalDigitRanges c.toNat

/-- The class the regex \w matches in a Python str pattern: the Unicode
alphanumeric characters of str.isalnum() — letters, and also numeric
characters such as '½' and '²' — together with the underscore. -/
def pyIsWordChar (c : Char) : Bool :=
  memRanges wordCharRanges c.toNat

/-- The Unicode alphabetic characters, str.isalpha(); used only to state
which accepted characters are or are not letters. -/
def pyIsAlphaChar (c : Char) : Bool :=
  memRanges alphaCharRanges c.toNat

/-- Embeds one character matching the regex [\d\W] of
UsersHandler._validate_name: a decimal digit, or a non-word character,
in the Unicode sense of Python's re on str patterns. -/
def isDigitOrNonWord (c : Char) : Bool :=
  pyIsDecimalDigit c || !(pyIsWordChar c)

/-- Embeds name.replace(" ", "") from UsersHandler._validate_name at the
character-list level: replacing every single space by the empty string is
removing the space characters. -/
def removeSpaces (l : List Char) : List Char :=
  l.filter (fun c => c ≠ ' ')

/-- Embeds UsersHandler._validate_name from src/main.py.  The handler
passes the string returned by get_argument, on which str() is the
identity, so the str coercion cannot fail and the "Invalid name" branch
is unreachable.  Returns (validated name, error). -/
def validate_name (name : String) : Option String × Option String :=
  if name = "" then (none, some ("Name cannot be empty"))
  else if (removeSpaces name.toList).any isDigitOrNonWord then
    (none, some ("Name cannot be filled with number or symbol"))
  else (some name, none)

/-- Value of a decimal digit string, none when a non-digit occurs;
helper for the int() embedding. -/
def digitsVal : List Char → Nat → Option Nat
  | [], acc => some acc
  | c :: cs, acc =>
      if c.isDigit then digitsVal cs (acc * 10 + (c.toNat - 48)) else none

/-- Embeds Python int() applied to the argument strings this service
receives: an optional sign followed by decimal digits; the empty string
and any non-digit fail.  (Python additionally tolerates surrounding
whitespace and inner underscores, which the embedding does not model;
such inputs do not occur in the claims.) -/
def int_ofString (s : String) : Option Int :=
  match s.data with
  | [] => none
  | '-' :: cs =>
      if cs = [] then none else (digitsVal cs 0).map (fun n => -(n : Int))
  | '+' :: cs =>
      if cs = [] then none else (digitsVal cs 0).map (fun n => (n : Int))
  | cs => (digitsVal cs 0).map (fun n => (n : Int))

/-- Embeds UserDetailHandler._validate_user_id from src/main.py.
Returns (validated id, error). -/
def validate_user_id (user_id : String) : Option Int × Option String :=
  match int_ofString user_id with
  | none => (none, some ("Invalid user_id"))
  | some n => if n = 0 then (none, some ("User ID cannot be 0")) else (some n, none)

/-- Embeds one row of the users table created by App.init_db: id SERIAL
PRIMARY KEY, name TEXT NOT NULL, created_at BIGINT, updated_at BIGINT. -/
structure User where
  id : Int
  name : String
  created_at : Int
  updated_at : Int
deriving Repr, DecidableEq

/-- Embeds the persisted users table together with the state of its
SERIAL id sequence: the next id Postgres will assign. -/
structure Store where
  rows : List User
  nextId : Int
deriving Repr, DecidableEq

/-- Well-formedness of the store: every persisted id is below the id the
SERIAL sequence will assign next, which is what Postgres maintains. -/
def Store.WF (st : Store) : Prop :=
  ∀ u ∈ st.rows, u.id < st.nextId

/-- Embeds the INSERT ... RETURNING id statement of UsersHandler.post:
appends a row with the store-assigned id and returns it together with
the new store state. -/
def Store.insert (st : Store) (name : String) (created_at updated_at : Int) :
    User × Store :=
  let u : User := ⟨st.nextId, name, created_at, updated_at⟩
  (u, ⟨st.rows ++ [u], st.nextId + 1⟩)

/-- Inserts a row into a list already sorted by descending created_at,
keeping it before every row with an equal or smaller created_at; helper
for the ORDER BY embedding. -/
def insertByCreatedDesc (u : User) : List User → List User
  | [] => [u]
  | v :: vs =>
      if v.created_at ≤ u.created_at then u :: v :: vs
      else v :: insertByCreatedDesc u vs

/-- Embeds ORDER BY created_at DESC: a stable sort of the rows by
descending created_at (ties keep an arbitrary, here insertion, order). -/
def sortByCreatedDesc : List User → List User
  | [] => []
  | u :: us => insertByCreatedDesc u (sortByCreatedDesc us)

/-- Embeds SELECT * FROM users ORDER BY created_at DESC LIMIT l OFFSET o
as executed by UsersHandler.get.  Postgres rejects a negative LIMIT or
OFFSET with an error, modelled as none; otherwise the sorted rows with
the offset skipped and at most limit returned. -/
def Store.list (st : Store) (limit offset : Int) : Option (List User) :=
  if limit < 0 || offset < 0 then none
  else some (((sortByCreatedDesc st.rows).drop offset.toNat).take limit.toNat)

/-- Embeds SELECT * FROM users WHERE id = %s with fetchone, as executed
by UserDetailHandler.get: the first row with the matching primary key,
or none. -/
def Store.getById (st : Store) (id : Int) : Option User :=
  st.rows.find? (fun u => u.id == id)

/-- Shape of an HTTP response body the service can produce: a JSON error
object with result false, a JSON success object carrying one user or a
list of users, or Tornado's default HTML error page, produced by the
framework when a handler raises (e.g. MissingArgumentError from
get_argument, or a database error), which is not JSON at all. -/
inductive Body where
  | json_err (error : String)
  | json_user (u : User)
  | json_users (us : List User)
  | html_error
deriving Repr, DecidableEq

/-- Whether a body is the JSON error shape with result false and an
error string. -/
def Body.isJsonErr : Body → Bool
  | json_err _ => true
  | _ => false

/-- An HTTP response: status code and body. -/
structure Response where
  status : Nat
  body : Body
deriving Repr, DecidableEq

/-- Embeds UsersHandler.post from src/main.py (the Create endpoint).
Parameters: the configured secret, the Com-X-Key header, the optional
name argument, the value time_now computed once at line 88, and the
store.  get_argument("name") has no default, so a missing name raises
Tornado's MissingArgumentError, an HTTPError(400) that the framework
turns into a 400 response with its default HTML error page before
_validate_name runs.  On success psycopg's fetchone after RETURNING
yields the inserted row, so the 500 branch of the source is not
reachable in the model.  Returns the response and the new store. -/
def usersPost (secret key : Option String) (nameArg : Option String)
    (time_now : Int) (st : Store) : Response × Store :=
  match validate_communication_key key secret with
  | some e => (⟨401, Body.json_err e⟩, st)
  | none =>
    match nameArg with
    | none => (⟨400, Body.html_error⟩, st)
    | some name_arg =>
      match validate_name name_arg with
      | (_, some e) => (⟨400, Body.json_err e⟩, st)
      | (validated, none) =>
        let name := validated.getD name_arg
        let (row, st') := st.insert name time_now time_now
        (⟨200, Body.json_user ⟨row.id, name, time_now, time_now⟩⟩, st')

/-- Embeds the int() coercion of a pagination argument in
UsersHandler.get: get_argument returns the default (an int) when the
argument is absent and its string value otherwise, and either way int()
is applied. -/
def coercePage (arg : Option String) (dflt : Int) : Option Int :=
  match arg with
  | none => some dflt
  | some s => int_ofString s

/-- Embeds UsersHandler.get from src/main.py (the List endpoint):
credential check, page_num (default 1) then page_size (default 10)
coercion, limit = page_size, offset = (page_num - 1) * page_size, then
the SELECT.  A database error (negative LIMIT or OFFSET) escapes the
handler and Tornado answers 500 with its default error page. -/
def usersGet (secret key : Option String)
    (pageNumArg pageSizeArg : Option String) (st : Store) : Response :=
  match validate_communication_key key secret with
  | some e => ⟨401, Body.json_err e⟩
  | none =>
    match coercePage pageNumArg 1 with
    | none => ⟨400, Body.json_err ("Invalid page_num")⟩
    | some page_num =>
      match coercePage pageSizeArg 10 with
      | none => ⟨400, Body.json_err ("Invalid page_size")⟩
      | some page_size =>
        match st.list page_size ((page_num - 1) * page_size) with
        | none => ⟨500, Body.html_error⟩
        | some users => ⟨200, Body.json_users users⟩

/-- Embeds UserDetailHandler.get from src/main.py (the GetById
endpoint): credential check, user id validation, SELECT by primary key,
404 on no row, 200 with the user otherwise. -/
def userDetailGet (secret key : Option String) (user_id : String)
    (st : Store) : Response :=
  match validate_communication_key key secret with
  | some e => ⟨401, Body.json_err e⟩
  | none =>
    match validate_user_id user_id with
    | (_, some e) => ⟨400, Body.json_err e⟩
    | (validated, none) =>
      match st.getById (validated.getD 0) with
      | none => ⟨404, Body.json_err ("User is not found")⟩
      | some u => ⟨200, Body.json_user u⟩

/-
Theorems
-/

/-- C10: the key validator coerces the presented key with str(), so an
absent Com-X-Key header is indistinguishable from a header whose literal
value is the string "None": for every configured secret the outcome is
identical on the two inputs; and when the secret is the string "None", a
request with no credential header authenticates successfully. -/
theorem missing_header_equals_literal_none :
    (∀ secret : Option String,
      validate_communication_key none secret =
        validate_communication_key (some ("None")) secret) ∧
    validate_communication_key none (some ("None")) = none := by
  constructor
  · intro secret
    cases secret <;> rfl
  · rfl

/-- C1: whenever the credential check fails, the failure message is
exactly "Unauthorized", and each of the three endpoints answers 401 with
that JSON error body, unchanged store, independently of every other
parameter — so the check precedes all field validation and store
access. -/
theorem unauthorized_short_circuits (secret key : Option String) (e : String)
    (h : validate_communication_key key secret = some e) :
    e = "Unauthorized" ∧
    (∀ (nameArg : Option String) (t : Int) (st : Store),
      usersPost secret key nameArg t st =
        (⟨401, Body.json_err ("Unauthorized")⟩, st)) ∧
    (∀ (pn ps : Option String) (st : Store),
      usersGet secret key pn ps st = ⟨401, Body.json_err ("Unauthorized")⟩) ∧
    (∀ (uid : String) (st : Store),
      userDetailGet secret key uid st = ⟨401, Body.json_err ("Unauthorized")⟩) := by
  have he : e = "Unauthorized" := by
    cases secret with
    | none => exact (Option.some.inj h).symm
    | some s =>
        have h' : (if pyStr key = s then (none : Option String)
            else some ("Unauthorized")) = some e := h
        split_ifs at h'
        exact (Option.some.inj h').symm
  subst he
  refine ⟨rfl, ?_, ?_, ?_⟩
  · intro nameArg t st
    simp [usersPost, h]
  · intro pn ps st
    simp [usersGet, h]
  · intro uid st
    simp [userDetailGet, h]

/-- Witness for C1 at the concrete input secret = "s", key = "k". -/
theorem unauthorized_short_circuits_witness :
    validate_communication_key (some ("k")) (some ("s")) = some ("Unauthorized") ∧
    usersPost (some ("s")) (some ("k")) (some ("Jane")) 0 ⟨[], 1⟩ =
      (⟨401, Body.json_err ("Unauthorized")⟩, ⟨[], 1⟩) ∧
    usersGet (some ("s")) (some ("k")) none none ⟨[], 1⟩ =
      ⟨401, Body.json_err ("Unauthorized")⟩ ∧
    userDetailGet (some ("s")) (some ("k")) "1" ⟨[], 1⟩ =
      ⟨401, Body.json_err ("Unauthorized")⟩ := by
  have h : validate_communication_key (some ("k")) (some ("s")) =
      some ("Unauthorized") := by decide
  have hm := unauthorized_short_circuits (some ("s")) (some ("k")) ("Unauthorized") h
  exact ⟨h, hm.2.1 (some ("Jane")) 0 ⟨[], 1⟩, hm.2.2.1 none none ⟨[], 1⟩,
    hm.2.2.2 ("1") ⟨[], 1⟩⟩

/-- A character matches the regex class [\d\W] exactly when it is a
Unicode decimal digit or is not a word character. -/
lemma isDigitOrNonWord_iff (c : Char) :
    isDigitOrNonWord c = true ↔
      (pyIsDecimalDigit c = true ∨ ¬ pyIsWordChar c = true) := by
  unfold isDigitOrNonWord
  by_cases hd : pyIsDecimalDigit c = true <;>
    by_cases hw : pyIsWordChar c = true <;> simp_all

/-- C2 counterexample: the single character of the name "½" is not a
letter (not even a Unicode one), not a digit and not an underscore — a
non-word character in the claim's own terms — yet validate_name accepts
the name with no error instead of rejecting it with "Name cannot be
filled with number or symbol": the regex's Unicode \w also covers
numeric characters. -/
theorem name_with_half_accepted_counterexample :
    validate_name ("½") = (some ("½"), none) ∧
    '½' ∈ removeSpaces ("½").toList ∧
    pyIsAlphaChar '½' = false ∧ '½'.isAlpha = false ∧
    pyIsDecimalDigit '½' = false ∧ '½'.isDigit = false ∧ '½' ≠ '_' := by
  decide

/-- C2 amended: validate_name, given any input: the empty string yields
"Name cannot be empty"; otherwise, if the text with all space
characters removed contains a Unicode decimal digit or a character that
is not a word character of the Unicode regex (alphanumeric per
str.isalnum — letters, and also numeric characters such as '½' — or
underscore), it yields "Name cannot be filled with number or symbol";
otherwise it returns the original unstripped string with no error. -/
theorem validate_name_unicode_spec (s : String) :
    (s = "" → validate_name s = (none, some ("Name cannot be empty"))) ∧
    (s ≠ "" →
      (∃ c ∈ removeSpaces s.toList,
        pyIsDecimalDigit c = true ∨ ¬ pyIsWordChar c = true) →
      validate_name s = (none, some ("Name cannot be filled with number or symbol"))) ∧
    (s ≠ "" →
      (∀ c ∈ removeSpaces s.toList,
        pyIsDecimalDigit c = false ∧ pyIsWordChar c = true) →
      validate_name s = (some s, none)) := by
  refine ⟨?_, ?_, ?_⟩
  · intro h
    simp [validate_name, h]
  · intro hne hex
    have hany : (removeSpaces s.toList).any isDigitOrNonWord = true := by
      rw [List.any_eq_true]
      obtain ⟨c, hc, hp⟩ := hex
      exact ⟨c, hc, (isDigitOrNonWord_iff c).mpr hp⟩
    unfold validate_name
    rw [if_neg hne, if_pos hany]
  · intro hne hall
    have hany : (removeSpaces s.toList).any isDigitOrNonWord = false := by
      rw [List.any_eq_false]
      intro c hc hmem
      rcases (isDigitOrNonWord_iff c).mp hmem with hd | hw
      · rw [(hall c hc).1] at hd
        exact absurd hd (by decide)
      · exact hw (hall c hc).2
    unfold validate_name
    rw [if_neg hne, if_neg (by rw [Bool.not_eq_true]; exact hany)]

/-- Witness for the amended C2 at the concrete inputs "", "a1", "ab"
and the non-ASCII letter "é". -/
theorem validate_name_unicode_spec_witness :
    validate_name ("") = (none, some ("Name cannot be empty")) ∧
    validate_name ("a1") =
      (none, some ("Name cannot be filled with number or symbol")) ∧
    validate_name ("ab") = (some ("ab"), none) ∧
    validate_name ("é") = (some ("é"), none) := by
  refine ⟨(validate_name_unicode_spec ("")).1 rfl, ?_, ?_, ?_⟩
  · exact (validate_name_unicode_spec ("a1")).2.1 (by decide)
      ⟨'1', by decide, Or.inl (by decide)⟩
  · exact (validate_name_unicode_spec ("ab")).2.2 (by decide) (by decide)
  · exact (validate_name_unicode_spec ("é")).2.2 (by decide) (by decide)

/-- C8 counterexample: the name "_" is accepted by validate_name, yet
after stripping spaces the remaining character '_' is not an alphabetic
letter — so not every character of an accepted name is a letter. -/
theorem underscore_name_counterexample :
    validate_name ("_") = (some ("_"), none) ∧
    '_' ∈ removeSpaces ("_").toList ∧ '_'.isAlpha = false := by
  decide

/-- C8 amended: for every name accepted by validate_name, after
stripping spaces every remaining character is a word character of the
Unicode regex that is not a decimal digit — alphanumeric per
str.isalnum or underscore — a class that besides letters also contains
the underscore and numeric characters such as '½'. -/
theorem accepted_name_nondigit_word_chars (s nm : String)
    (h : validate_name s = (some nm, none)) :
    ∀ c ∈ removeSpaces nm.toList,
      pyIsWordChar c = true ∧ pyIsDecimalDigit c = false := by
  unfold validate_name at h
  split_ifs at h with h1 h2
  · exact absurd h (by simp)
  · exact absurd h (by simp)
  · have hnm : s = nm := Option.some.inj (congrArg Prod.fst h)
    subst hnm
    intro c hc
    have hfalse : ¬ isDigitOrNonWord c = true :=
      List.any_eq_false.mp (Bool.not_eq_true _ ▸ h2) c hc
    constructor
    · by_cases hw : pyIsWordChar c = true
      · exact hw
      · exact absurd ((isDigitOrNonWord_iff c).mpr (Or.inr hw)) hfalse
    · by_cases hd : pyIsDecimalDigit c = true
      · exact absurd ((isDigitOrNonWord_iff c).mpr (Or.inl hd)) hfalse
      · simpa using hd

/-- Witness for the amended C8: instantiated at the accepted names "a"
and "½" with their single characters. -/
theorem accepted_name_nondigit_word_chars_witness :
    (pyIsWordChar 'a' = true ∧ pyIsDecimalDigit 'a' = false) ∧
    (pyIsWordChar '½' = true ∧ pyIsDecimalDigit '½' = false) :=
  ⟨accepted_name_nondigit_word_chars ("a") ("a") (by decide) 'a' (by decide),
   accepted_name_nondigit_word_chars ("½") ("½") (by decide) '½' (by decide)⟩

/-- C9: a non-empty string made only of space characters passes
validate_name unchanged, because the emptiness check compares against ""
before the spaces are removed; Create with a valid credential therefore
accepts such a name and stores it. -/
theorem whitespace_only_name_accepted (s : String) (hne : s ≠ "")
    (hsp : ∀ c ∈ s.toList, c = ' ') :
    validate_name s = (some s, none) ∧
    ∀ (secret key : Option String) (t : Int) (st : Store),
      validate_communication_key key secret = none →
      usersPost secret key (some s) t st =
        (⟨200, Body.json_user ⟨st.nextId, s, t, t⟩⟩,
         ⟨st.rows ++ [⟨st.nextId, s, t, t⟩], st.nextId + 1⟩) := by
  have hempty : removeSpaces s.toList = [] := by
    rw [removeSpaces, List.filter_eq_nil_iff]
    intro c hc
    simp [hsp c hc]
  have hv : validate_name s = (some s, none) := by
    unfold validate_name
    rw [if_neg hne, hempty]
    simp
  refine ⟨hv, ?_⟩
  intro secret key t st hkey
  simp [usersPost, hkey, hv, Store.insert]

/-- Witness for C9 at the concrete input " " (a single space). -/
theorem whitespace_only_name_accepted_witness :
    validate_name (" ") = (some (" "), none) ∧
    usersPost (some ("k")) (some ("k")) (some (" ")) 0 ⟨[], 1⟩ =
      (⟨200, Body.json_user ⟨1, " ", 0, 0⟩⟩, ⟨[⟨1, " ", 0, 0⟩], 2⟩) := by
  have h := whitespace_only_name_accepted (" ") (by decide) (by decide)
  exact ⟨h.1, h.2 (some ("k")) (some ("k")) 0 ⟨[], 1⟩ (by decide)⟩

/-- In the accepted branch validate_name returns the original string. -/
lemma validate_name_ok_eq (s nm : String) (h : validate_name s = (some nm, none)) :
    nm = s := by
  unfold validate_name at h
  split_ifs at h
  · exact absurd h (by simp)
  · exact absurd h (by simp)
  · exact (Option.some.inj (congrArg Prod.fst h)).symm

/-- C4: a Create request with a valid credential and a valid name takes
the single value time_now computed once by the handler, uses it for both
created_at and updated_at, and answers 200 with a user carrying the
submitted name, the store-assigned id and those equal timestamps, the
row being appended to the store. -/
theorem create_single_timestamp (secret key : Option String)
    (n nm : String) (t : Int) (st : Store)
    (hkey : validate_communication_key key secret = none)
    (hname : validate_name n = (some nm, none)) :
    nm = n ∧
    usersPost secret key (some n) t st =
      (⟨200, Body.json_user ⟨st.nextId, nm, t, t⟩⟩,
       ⟨st.rows ++ [⟨st.nextId, nm, t, t⟩], st.nextId + 1⟩) := by
  refine ⟨validate_name_ok_eq n nm hname, ?_⟩
  simp [usersPost, hkey, hname, Store.insert]

/-- Witness for C4 at the concrete input name = "Jane Doe". -/
theorem create_single_timestamp_witness :
    ("Jane Doe" : String) = "Jane Doe" ∧
    usersPost (some ("k")) (some ("k")) (some ("Jane Doe")) 7 ⟨[], 1⟩ =
      (⟨200, Body.json_user ⟨1, "Jane Doe", 7, 7⟩⟩,
       ⟨[⟨1, "Jane Doe", 7, 7⟩], 2⟩) := by
  have h := create_single_timestamp (some ("k")) (some ("k")) ("Jane Doe")
    ("Jane Doe") 7 ⟨[], 1⟩ (by decide) (by decide)
  exact ⟨rfl, h.2⟩

/-- C3: a user created via Create with a valid credential and a valid
name is retrievable via GetById at the id returned by Create, and the
user returned there is the very one Create answered with — identical
name, created_at and updated_at. -/
theorem create_then_get_roundtrip (secret key : Option String)
    (n nm idStr : String) (t : Int) (st : Store)
    (hwf : Store.WF st) (hpos : 0 < st.nextId)
    (hkey : validate_communication_key key secret = none)
    (hname : validate_name n = (some nm, none))
    (hid : int_ofString idStr = some st.nextId) :
    ∃ u : User,
      usersPost secret key (some n) t st =
        (⟨200, Body.json_user u⟩, ⟨st.rows ++ [u], st.nextId + 1⟩) ∧
      u.id = st.nextId ∧ u.name = nm ∧ u.created_at = t ∧ u.updated_at = t ∧
      userDetailGet secret key idStr ⟨st.rows ++ [u], st.nextId + 1⟩ =
        ⟨200, Body.json_user u⟩ := by
  refine ⟨⟨st.nextId, nm, t, t⟩, (create_single_timestamp secret key n nm t st
    hkey hname).2, rfl, rfl, rfl, rfl, ?_⟩
  have hvid : validate_user_id idStr = (some st.nextId, none) := by
    unfold validate_user_id
    rw [hid]
    simp [Int.ne_of_gt hpos]
  have hfind : (Store.getById ⟨st.rows ++ [⟨st.nextId, nm, t, t⟩], st.nextId + 1⟩
      st.nextId) = some ⟨st.nextId, nm, t, t⟩ := by
    unfold Store.getById
    rw [List.find?_append]
    have hnone : st.rows.find? (fun u => u.id == st.nextId) = none := by
      rw [List.find?_eq_none]
      intro u hu
      simp only [beq_iff_eq]
      exact Int.ne_of_lt (hwf u hu)
    rw [hnone]
    simp
  simp [userDetailGet, hkey, hvid, hfind]

/-- Witness for C3 at the concrete inputs name = "Jane", id string "1",
empty store. -/
theorem create_then_get_roundtrip_witness :
    ∃ u : User,
      usersPost (some ("k")) (some ("k")) (some ("Jane")) 5 ⟨[], 1⟩ =
        (⟨200, Body.json_user u⟩, ⟨[] ++ [u], 1 + 1⟩) ∧
      u.id = 1 ∧ u.name = "Jane" ∧ u.created_at = 5 ∧ u.updated_at = 5 ∧
      userDetailGet (some ("k")) (some ("k")) ("1") ⟨[] ++ [u], 1 + 1⟩ =
        ⟨200, Body.json_user u⟩ :=
  create_then_get_roundtrip (some ("k")) (some ("k")) ("Jane") ("Jane") ("1")
    5 ⟨[], 1⟩ (by intro u hu; cases hu) (by decide) (by decide) (by decide)
    (by decide)

/-- C7 counterexample: with a valid credential and the name parameter
absent, Create answers 400 with Tornado's default error page, which is
not the JSON error shape, and the name validation step never runs. -/
theorem missing_name_counterexample :
    (usersPost (some ("k")) (some ("k")) none 0 ⟨[], 1⟩).1.status = 400 ∧
    (usersPost (some ("k")) (some ("k")) none 0 ⟨[], 1⟩).1.body = Body.html_error ∧
    (usersPost (some ("k")) (some ("k")) none 0 ⟨[], 1⟩).1.body.isJsonErr = false := by
  decide

/-- C7 amended: with a valid credential and no name parameter,
get_argument raises Tornado's MissingArgumentError, an HTTPError(400)
that the framework converts to a 400 response with its default error
page rather than the JSON error body; the store is untouched. -/
theorem missing_name_html_400 (secret key : Option String) (t : Int) (st : Store)
    (hkey : validate_communication_key key secret = none) :
    usersPost secret key none t st = (⟨400, Body.html_error⟩, st) := by
  simp [usersPost, hkey]

/-- Witness for the amended C7 at concrete inputs. -/
theorem missing_name_html_400_witness :
    usersPost (some ("k")) (some ("k")) none 3 ⟨[], 1⟩ =
      (⟨400, Body.html_error⟩, ⟨[], 1⟩) :=
  missing_name_html_400 (some ("k")) (some ("k")) 3 ⟨[], 1⟩ (by decide)

/-- C5: for a List request with a valid credential, page_num defaults to
1 and page_size to 10; a page_num that fails integer coercion answers
400 "Invalid page_num" before page_size is examined; a failing page_size
(with page_num fine) answers 400 "Invalid page_size"; otherwise the
store is queried with limit = page_size and offset =
(page_num - 1) * page_size, with no lower bound on either value. -/
theorem list_pagination (secret key : Option String)
    (pnArg psArg : Option String) (st : Store)
    (hkey : validate_communication_key key secret = none) :
    coercePage none 1 = some 1 ∧
    coercePage none 10 = some 10 ∧
    (coercePage pnArg 1 = none →
      usersGet secret key pnArg psArg st = ⟨400, Body.json_err ("Invalid page_num")⟩) ∧
    (∀ pn : Int, coercePage pnArg 1 = some pn → coercePage psArg 10 = none →
      usersGet secret key pnArg psArg st = ⟨400, Body.json_err ("Invalid page_size")⟩) ∧
    (∀ pn ps : Int, coercePage pnArg 1 = some pn → coercePage psArg 10 = some ps →
      usersGet secret key pnArg psArg st =
        match st.list ps ((pn - 1) * ps) with
        | none => ⟨500, Body.html_error⟩
        | some users => ⟨200, Body.json_users users⟩) := by
  refine ⟨rfl, rfl, ?_, ?_, ?_⟩
  · intro hpn
    simp [usersGet, hkey, hpn]
  · intro pn hpn hps
    simp [usersGet, hkey, hpn, hps]
  · intro pn ps hpn hps
    simp [usersGet, hkey, hpn, hps]

/-- Witness for C5 at concrete inputs: page_num "abc" rejected first,
page_size "x" rejected second, and page_num "2" page_size "1" querying
the store with limit 1 and offset 1 on a two-row store. -/
theorem list_pagination_witness :
    usersGet (some ("k")) (some ("k")) (some ("abc")) (some ("x"))
      ⟨[], 1⟩ = ⟨400, Body.json_err ("Invalid page_num")⟩ ∧
    usersGet (some ("k")) (some ("k")) (some ("2")) (some ("x"))
      ⟨[], 1⟩ = ⟨400, Body.json_err ("Invalid page_size")⟩ ∧
    usersGet (some ("k")) (some ("k")) (some ("2")) (some ("1"))
      ⟨[⟨1, "a", 5, 5⟩, ⟨2, "b", 9, 9⟩], 3⟩ =
      ⟨200, Body.json_users [⟨1, "a", 5, 5⟩]⟩ := by
  have h1 := (list_pagination (some ("k")) (some ("k")) (some ("abc"))
    (some ("x")) ⟨[], 1⟩ (by decide)).2.2.1 (by decide)
  have h2 := (list_pagination (some ("k")) (some ("k")) (some ("2"))
    (some ("x")) ⟨[], 1⟩ (by decide)).2.2.2.1 2 (by decide) (by decide)
  have h3 := (list_pagination (some ("k")) (some ("k")) (some ("2"))
    (some ("1")) ⟨[⟨1, "a", 5, 5⟩, ⟨2, "b", 9, 9⟩], 3⟩ (by decide)).2.2.2.2
    2 1 (by decide) (by decide)
  refine ⟨h1, h2, ?_⟩
  rw [h3]
  decide

/-- C6: for a GetById request with a valid credential: an id coercing to
0 answers 400 "User ID cannot be 0"; a non-zero id with no matching row
answers 404 "User is not found"; a matching row answers 200 with that
user. -/
theorem get_by_id_cases (secret key : Option String) (s : String) (st : Store)
    (hkey : validate_communication_key key secret = none) :
    (int_ofString s = some 0 →
      userDetailGet secret key s st = ⟨400, Body.json_err ("User ID cannot be 0")⟩) ∧
    (∀ i : Int, int_ofString s = some i → i ≠ 0 → st.getById i = none →
      userDetailGet secret key s st = ⟨404, Body.json_err ("User is not found")⟩) ∧
    (∀ (i : Int) (u : User), int_ofString s = some i → i ≠ 0 → st.getById i = some u →
      userDetailGet secret key s st = ⟨200, Body.json_user u⟩) := by
  refine ⟨?_, ?_, ?_⟩
  · intro h0
    simp [userDetailGet, hkey, validate_user_id, h0]
  · intro i hi hne hnone
    simp [userDetailGet, hkey, validate_user_id, hi, hne, hnone]
  · intro i u hi hne hsome
    simp [userDetailGet, hkey, validate_user_id, hi, hne, hsome]

/-- Witness for C6 at concrete inputs: id "0" rejected, id "9" absent
from a one-row store, id "1" present. -/
theorem get_by_id_cases_witness :
    userDetailGet (some ("k")) (some ("k")) ("0") ⟨[⟨1, "a", 5, 5⟩], 2⟩ =
      ⟨400, Body.json_err ("User ID cannot be 0")⟩ ∧
    userDetailGet (some ("k")) (some ("k")) ("9") ⟨[⟨1, "a", 5, 5⟩], 2⟩ =
      ⟨404, Body.json_err ("User is not found")⟩ ∧
    userDetailGet (some ("k")) (some ("k")) ("1") ⟨[⟨1, "a", 5, 5⟩], 2⟩ =
      ⟨200, Body.json_user ⟨1, "a", 5, 5⟩⟩ := by
  have h := get_by_id_cases (some ("k")) (some ("k")) ("0")
    ⟨[⟨1, "a", 5, 5⟩], 2⟩ (by decide)
  have h9 := get_by_id_cases (some ("k")) (some ("k")) ("9")
    ⟨[⟨1, "a", 5, 5⟩], 2⟩ (by decide)
  have h1 := get_by_id_cases (some ("k")) (some ("k")) ("1")
    ⟨[⟨1, "a", 5, 5⟩], 2⟩ (by decide)
  exact ⟨h.1 (by decide), h9.2.1 9 (by decide) (by decide) (by decide),
    h1.2.2 1 ⟨1, "a", 5, 5⟩ (by decide) (by decide) (by decide)⟩

end UserService
